import Mathlib

/-!
Verification of the SMADR pipeline orchestrator and provider adapter
(`src/index.tsx`).  The orchestrator (`handleSubmit`) drives a fixed
four-stage sequence of adapter calls (strategize, four sequential initial
drafts, four sequential critique/refine passes, one synthesis) and the
adapter (`callGenerativeAI`) dispatches one network request per call to
the configured provider.  The embedding below models the adapter as an
oracle indexed by call number (the behaviour of the j-th provider call),
records every call issued together with its result, and models the
OpenAI-compatible HTTP path structurally.
-/

/-- A conversation turn as sent to a provider (`Content` in the source:
`{role, parts: [{text}]}`). -/
structure Content where
  role : String
  parts : List String
  deriving DecidableEq

/-- A chat message held in UI state (`Message` in the source). -/
structure Message where
  role : String
  parts : List String
  deriving DecidableEq

/-- One adapter invocation: the contents array and the system instruction
passed to `callGenerativeAI`. -/
structure CallRecord where
  contents : List Content
  systemInstruction : String
  deriving DecidableEq

/-- Errors thrown by `callGenerativeAI`, tagged by throw site: `auth` for
the missing-key throws, `transport` for the non-2xx throw (and native SDK
failures), `parse` for a rejected `response.json()`, `protocol` for
reading a field of an absent first choice. -/
inductive AdapterError where
  | auth (msg : String)
  | transport (msg : String)
  | parse (msg : String)
  | protocol (msg : String)
  deriving DecidableEq

/-- The `.message` of the thrown `Error` object. -/
def AdapterError.message : AdapterError → String
  | .auth m => m
  | .transport m => m
  | .parse m => m
  | .protocol m => m

/-- The sequence of adapter calls a run issued, each paired with its
outcome. -/
abbrev Trace := List (CallRecord × Except AdapterError String)

/-- Behaviour of the provider: result of the j-th adapter call, given the
call's inputs. -/
abbrev Oracle := Nat → CallRecord → Except AdapterError String

/-- The character class `String.prototype.trim` removes (ECMA-262
WhiteSpace and LineTerminator): TAB, LF, VT, FF, CR, space, NBSP, BOM,
the Unicode space separators U+1680, U+2000..U+200A, U+202F, U+205F and
U+3000, and the line separators U+2028 and U+2029. -/
def isJsWhitespace (c : Char) : Bool :=
  c = ' ' || c = '\t' || c = '\n' || c = '\r' || c = '\x0b' || c = '\x0c' ||
    c = '\u00a0' || c = '\ufeff' || c = '\u1680' ||
    ('\u2000' ≤ c && c ≤ '\u200a') ||
    c = '\u2028' || c = '\u2029' || c = '\u202f' || c = '\u205f' || c = '\u3000'

/-- The `userInput.trim()` call of the source's emptiness check. -/
def jsTrim (s : String) : String :=
  String.mk (((s.data.dropWhile isJsWhitespace).reverse.dropWhile isJsWhitespace).reverse)

/-- Constant `STRATEGIST_SYSTEM_INSTRUCTION` from the source. -/
def STRATEGIST_SYSTEM_INSTRUCTION : String :=
  "You are a master strategist AI. Your task is to analyze the user\x27s query and create a detailed, step-by-step plan for how a team of AI agents should approach answering it. Identify key areas to research, potential ambiguities to clarify, and the best structure for the final response. This plan will guide the other agents."

/-- Constant `INITIAL_SYSTEM_INSTRUCTION` from the source. -/
def INITIAL_SYSTEM_INSTRUCTION : String :=
  "You are an expert-level AI assistant. Your task is to provide a comprehensive, accurate, and well-reasoned initial response to the user\x27s query, strictly following the provided execution plan. Aim for clarity and depth. Note: Your response is an intermediate step for other AI agents and will not be shown to the user. Be concise and focus on core information without unnecessary verbosity."

/-- Constant `REFINEMENT_SYSTEM_INSTRUCTION` from the source. -/
def REFINEMENT_SYSTEM_INSTRUCTION : String :=
  "You are a reflective AI agent. Your primary task is to find flaws. Critically analyze your previous response and the responses from other AI agents, considering the original execution plan. Focus specifically on identifying factual inaccuracies, logical fallacies, omissions, or any other weaknesses. Your goal is to generate a new, revised response that corrects these specific errors and is free from the flaws you have identified. Note: This refined response is for a final synthesizer agent, not the user, so be direct and prioritize accuracy over conversational style."

/-- Constant `SYNTHESIZER_SYSTEM_INSTRUCTION` from the source. -/
def SYNTHESIZER_SYSTEM_INSTRUCTION : String :=
  "You are a master synthesizer AI. Your PRIMARY GOAL is to write the final, complete response to the user\x27s query. You will be given the user\x27s query, an execution plan, and four refined responses from other AI agents. Your task is to analyze these responses—identifying their strengths to incorporate and their flaws to discard—while ensuring the final output aligns with the initial plan. Use this analysis to construct the single best possible answer for the user. Do not just critique the other agents; your output should BE the final, polished response."

/-- Progress label set before the strategist call. -/
def strategizeStatus : String := "Strategizing: Formulating optimal approach..."

/-- Progress label set before the i-th (0-based) initial-draft call. -/
def initStatus (i : Nat) : String :=
  "Initializing agent " ++ toString (i + 1) ++ "/4: Generating analysis..."

/-- Progress label set before the i-th (0-based) refinement call. -/
def refineStatus (i : Nat) : String :=
  "Refining answer " ++ toString (i + 1) ++ "/4: Critiquing and improving..."

/-- Progress label set before the synthesis call. -/
def synthesizeStatus : String := "Synthesizing: Compiling final response..."

/-- The planned-turn template of the source: the user query in quotes,
a blank line, and the execution plan under its heading. -/
def userQueryWithPlan (userInput plan : String) : String :=
  "User Query: \"" ++ userInput ++ "\"\n\nExecution Plan:\n" ++ plan

/-- The `initialAnswers.filter((_, j) => j !== i)` selection of the refinement loop. -/
def otherAnswersOf (answers : List String) (i : Nat) : List String :=
  (answers.enum.filter (fun p => p.1 != i)).map (fun p => p.2)

/-- The `refinementContext` template string; out-of-range indexing renders
as `undefined`, as JavaScript string interpolation would. -/
def peerBlock (initialAnswer : String) (others : List String) : String :=
  "My initial response was: \"" ++ initialAnswer ++
    "\". The other agents responded with: 1. \"" ++ others.getD 0 "undefined" ++
    "\" 2. \"" ++ others.getD 1 "undefined" ++
    "\" 3. \"" ++ others.getD 2 "undefined" ++
    "\". Based on this context, critically re-evaluate and provide a new, improved response."

/-- The `refinementTurn` content for slot `i`. -/
def refinementTurn (uqp : String) (answers : List String) (i : Nat) : Content :=
  Content.mk "user"
    [uqp ++ "\n\n---INTERNAL CONTEXT---\n" ++
      peerBlock (answers.getD i "undefined") (otherAnswersOf answers i)]

/-- The `synthesizerContext` template string. -/
def synthContext (refined : List String) : String :=
  "Here are the four refined responses to the user\x27s query. Your task is to synthesize them into the best single, final answer.\n\nRefined Response 1:\n\"" ++
    refined.getD 0 "undefined" ++ "\"\n\nRefined Response 2:\n\"" ++
    refined.getD 1 "undefined" ++ "\"\n\nRefined Response 3:\n\"" ++
    refined.getD 2 "undefined" ++ "\"\n\nRefined Response 4:\n\"" ++
    refined.getD 3 "undefined" ++ "\""

/-- One of the two strictly sequential four-iteration call loops of
`handleSubmit` (`for (let i = 0; i < 4; i++) ... await callGenerativeAI`):
`n` iterations remain, the current slot is `i`, and `k` is the index of the
next adapter call overall.  The loop stops at the first failed call and
otherwise collects the four responses in order. -/
def runLoop (oracle : Oracle) (mkCall : Nat → CallRecord) (mkStatus : Nat → String) :
    Nat → Nat → Nat → Trace × List String × Except AdapterError (List String)
  | 0, _, _ => ([], [], Except.ok [])
  | Nat.succ n, i, k =>
    let cr := mkCall i
    match oracle k cr with
    | Except.error e => ([(cr, Except.error e)], [mkStatus i], Except.error e)
    | Except.ok a =>
      let rest := runLoop oracle mkCall mkStatus n (i + 1) (k + 1)
      ((cr, Except.ok a) :: rest.1, mkStatus i :: rest.2.1,
        match rest.2.2 with
        | Except.ok as => Except.ok (a :: as)
        | Except.error e => Except.error e)

/-- The body of `handleSubmit`'s `try` block: strategize, four initial
drafts, four refinements, one synthesis, stopping at the first failure.
Returns the issued calls, the emitted progress labels, and the terminal
result. -/
def runPipeline (oracle : Oracle) (history : List Content) (userInput : String) :
    Trace × List String × Except AdapterError String :=
  let cr0 : CallRecord :=
    CallRecord.mk (history ++ [Content.mk "user" [userInput]]) STRATEGIST_SYSTEM_INSTRUCTION
  match oracle 0 cr0 with
  | Except.error e => ([(cr0, Except.error e)], [strategizeStatus], Except.error e)
  | Except.ok plan =>
    let uqp := userQueryWithPlan userInput plan
    let r1 := runLoop oracle
      (fun _ => CallRecord.mk (history ++ [Content.mk "user" [uqp]]) INITIAL_SYSTEM_INSTRUCTION)
      initStatus 4 0 1
    match r1.2.2 with
    | Except.error e =>
      ((cr0, Except.ok plan) :: r1.1, strategizeStatus :: r1.2.1, Except.error e)
    | Except.ok initialAnswers =>
      let r2 := runLoop oracle
        (fun i => CallRecord.mk (history ++ [refinementTurn uqp initialAnswers i])
          REFINEMENT_SYSTEM_INSTRUCTION)
        refineStatus 4 0 5
      match r2.2.2 with
      | Except.error e =>
        ((cr0, Except.ok plan) :: (r1.1 ++ r2.1),
          strategizeStatus :: (r1.2.1 ++ r2.2.1), Except.error e)
      | Except.ok refinedAnswers =>
        let crS : CallRecord := CallRecord.mk
          (history ++ [Content.mk "user"
            [uqp ++ "\n\n---INTERNAL CONTEXT---\n" ++ synthContext refinedAnswers]])
          SYNTHESIZER_SYSTEM_INSTRUCTION
        match oracle 9 crS with
        | Except.error e =>
          ((cr0, Except.ok plan) :: (r1.1 ++ r2.1 ++ [(crS, Except.error e)]),
            strategizeStatus :: (r1.2.1 ++ r2.2.1 ++ [synthesizeStatus]), Except.error e)
        | Except.ok finalText =>
          ((cr0, Except.ok plan) :: (r1.1 ++ r2.1 ++ [(crS, Except.ok finalText)]),
            strategizeStatus :: (r1.2.1 ++ r2.2.1 ++ [synthesizeStatus]), Except.ok finalText)

/-- Enumeration `ApiProvider` from the source. -/
inductive ApiProvider where
  | google
  | groq
  | openrouter
  deriving DecidableEq

/-- The per-provider credential fields of the settings object. -/
structure ApiKeys where
  google : String
  groq : String
  openrouter : String
  deriving DecidableEq

/-- The `apiSettings` value: provider selector, model name, credentials. -/
structure ApiSettings where
  provider : ApiProvider
  model : String
  keys : ApiKeys
  deriving DecidableEq

/-- Observable component state: the rendered conversation, the loading
flag, the settings value, and the persisted copy in localStorage. -/
structure AppModel where
  messages : List Message
  isLoading : Bool
  apiSettings : ApiSettings
  storedSettings : Option ApiSettings
  deriving DecidableEq

/-- Everything one form submission produces: the final component state,
the adapter calls issued with their results, the progress labels emitted,
and the terminal event (`none` when the submission short-circuited). -/
structure SubmitOutcome where
  state : AppModel
  trace : Trace
  statuses : List String
  terminal : Option (Except AdapterError String)

/-- The history snapshot passed to every adapter call:
`currentMessages.slice(0, -1)` mapped to content records. -/
def chatHistory (m : AppModel) (userInput : String) : List Content :=
  ((m.messages ++ [Message.mk "user" [userInput]]).dropLast).map
    (fun msg => Content.mk msg.role msg.parts)

/-- Function `handleSubmit` from the source: blank input short-circuits with no
state change; otherwise the pipeline runs and either the final text or the
caught error's `.message` is appended as the model reply. -/
def handleSubmitModel (oracle : Oracle) (m : AppModel) (userInput : String) : SubmitOutcome :=
  if jsTrim userInput = "" then ⟨m, [], [], none⟩
  else
    let currentMessages := m.messages ++ [Message.mk "user" [userInput]]
    let r := runPipeline oracle (chatHistory m userInput) userInput
    match r.2.2 with
    | Except.ok finalText =>
      let st := AppModel.mk (currentMessages ++ [Message.mk "model" [finalText]]) false
        m.apiSettings m.storedSettings
      ⟨st, r.1, r.2.1, some (Except.ok finalText)⟩
    | Except.error e =>
      let st := AppModel.mk (currentMessages ++ [Message.mk "model" [e.message]]) false
        m.apiSettings m.storedSettings
      ⟨st, r.1, r.2.1, some (Except.error e)⟩

def demoSettings : ApiSettings :=
  ApiSettings.mk ApiProvider.google "gemini-2.5-flash" (ApiKeys.mk "gk" "qk" "ok")

def demoModel : AppModel := AppModel.mk [] false demoSettings none

/-- Searches for the first occurrence of `pat` and returns the remainder
of the text after it, when found. -/
def dropThroughFirst (pat : List Char) : List Char → Option (List Char)
  | [] => if pat.isPrefixOf ([] : List Char) then some [] else none
  | c :: t =>
    if pat.isPrefixOf (c :: t) then some ((c :: t).drop pat.length)
    else dropThroughFirst pat t

/-- Predicate deciding that every needle occurs in `s`, in the given
order, at non-overlapping positions from left to right. -/
def strContainsInOrder (s : String) : List String → Bool
  | [] => true
  | p :: ps =>
    match dropThroughFirst p.data s.data with
    | none => false
    | some rest => strContainsInOrder (String.mk rest) ps

/-- Claim C1, counterexample: the single-space query is a non-empty user
query, yet on an all-success run the orchestrator issues zero adapter
calls (not 10), because the code short-circuits on queries that trim to
the empty string. -/
theorem c1_counterexample :
    " " ≠ "" ∧
      (handleSubmitModel (fun _ _ => Except.ok "x") demoModel " ").trace.length ≠ 10 := by
  exact ⟨by decide, by decide⟩

/-- Claim C1 (amended to queries that are non-empty after trimming): for
every query that does not trim to the empty string, an all-success run
issues exactly 10 adapter calls in the fixed order 1 strategist call, 4
initial-draft calls, 4 refinement calls, 1 synthesizer call, and no
others. -/
theorem c1_ten_calls_in_order (f : Nat → CallRecord → String) (m : AppModel) (input : String)
    (h : jsTrim input ≠ "") :
    ((handleSubmitModel (fun j cr => Except.ok (f j cr)) m input).trace.map
        (fun p => p.1.systemInstruction)) =
      [STRATEGIST_SYSTEM_INSTRUCTION] ++ List.replicate 4 INITIAL_SYSTEM_INSTRUCTION ++
        List.replicate 4 REFINEMENT_SYSTEM_INSTRUCTION ++ [SYNTHESIZER_SYSTEM_INSTRUCTION] ∧
      (handleSubmitModel (fun j cr => Except.ok (f j cr)) m input).trace.length = 10 := by
  constructor
  · simp only [handleSubmitModel, if_neg h]
    rfl
  · simp only [handleSubmitModel, if_neg h]
    rfl

/-- Concrete instantiation of the amended claim C1. -/
theorem c1_ten_calls_in_order_witness :
    jsTrim "q" ≠ "" ∧
      (((handleSubmitModel (fun _ _ => Except.ok "x") demoModel "q").trace.map
          (fun p => p.1.systemInstruction)) =
        [STRATEGIST_SYSTEM_INSTRUCTION] ++ List.replicate 4 INITIAL_SYSTEM_INSTRUCTION ++
          List.replicate 4 REFINEMENT_SYSTEM_INSTRUCTION ++ [SYNTHESIZER_SYSTEM_INSTRUCTION] ∧
        (handleSubmitModel (fun _ _ => Except.ok "x") demoModel "q").trace.length = 10) :=
  ⟨by decide, c1_ten_calls_in_order (fun _ _ => "x") demoModel "q" (by decide)⟩

/-- Claim C5: an empty or whitespace-only query is a no-op: zero adapter
calls, zero progress labels, no terminal event, and the component state is
returned unchanged. -/
theorem c5_blank_query_noop (oracle : Oracle) (m : AppModel) (input : String)
    (h : jsTrim input = "") :
    handleSubmitModel oracle m input = ⟨m, [], [], none⟩ := by
  simp only [handleSubmitModel, if_pos h]

/-- Concrete instantiation of claim C5 on a whitespace-only query that
mixes ASCII whitespace with the ideographic space U+3000. -/
theorem c5_blank_query_noop_witness :
    jsTrim " \t\n\u3000 " = "" ∧
      handleSubmitModel (fun _ _ => Except.ok "x") demoModel " \t\n\u3000 " =
        ⟨demoModel, [], [], none⟩ :=
  ⟨by decide,
    c5_blank_query_noop (fun _ _ => Except.ok "x") demoModel " \t\n\u3000 " (by decide)⟩

/-- Deterministic stub responses for the round-trip claim C6: the ten
calls return "plan", "init0".."init3", "ref0".."ref3", "final" in order. -/
def c6Stub (j : Nat) : String :=
  ["plan", "init0", "init1", "init2", "init3",
   "ref0", "ref1", "ref2", "ref3", "final"].getD j ""

/-- The outcome of submitting "q" against the C6 stub provider. -/
def c6Out : SubmitOutcome := handleSubmitModel (fun j _ => Except.ok (c6Stub j)) demoModel "q"

/-- The text of the user turn appended for the synthesis call (the last
content of call 9). -/
def c6SynthText : String :=
  ((c6Out.trace.getD 9 (CallRecord.mk [] "", Except.ok "")).1.contents.getLastD
    (Content.mk "" [])).parts.getD 0 ""

/-- Claim C6: against the deterministic stub the terminal result is
"final" (displayed as the model reply), the tenth call is the synthesizer
call, and its input turn contains "ref0".."ref3" in index order, each
under its "Refined Response k" label. -/
theorem c6_roundtrip :
    c6Out.terminal = some (Except.ok "final") ∧
      c6Out.state.messages = [Message.mk "user" ["q"], Message.mk "model" ["final"]] ∧
      (c6Out.trace.getD 9 (CallRecord.mk [] "", Except.ok "")).1.systemInstruction =
        SYNTHESIZER_SYSTEM_INSTRUCTION ∧
      strContainsInOrder c6SynthText
        ["Refined Response 1:\n\"ref0\"", "Refined Response 2:\n\"ref1\"",
         "Refined Response 3:\n\"ref2\"", "Refined Response 4:\n\"ref3\""] = true := by
  exact ⟨rfl, rfl, rfl, rfl⟩

/-- The strategist call record of a run (the first adapter call). -/
def strategistRecord (m : AppModel) (input : String) : CallRecord :=
  CallRecord.mk (chatHistory m input ++ [Content.mk "user" [input]])
    STRATEGIST_SYSTEM_INSTRUCTION

/-- Under an input-deterministic provider `g`, the record all four
initial-draft calls share. -/
def sharedInitRecord (g : CallRecord → String) (m : AppModel) (input : String) : CallRecord :=
  CallRecord.mk
    (chatHistory m input ++
      [Content.mk "user" [userQueryWithPlan input (g (strategistRecord m input))]])
    INITIAL_SYSTEM_INSTRUCTION

/-- Claim C10: the four initial-draft calls of one request are issued with
extensionally identical inputs (same history snapshot, same planned turn,
same initial-draft instruction), so under a provider that is a function of
the call inputs alone all four results are equal; the slot index shows up
only in the progress label. -/
theorem c10_identical_initial_calls (g : CallRecord → String) (m : AppModel) (input : String)
    (h : jsTrim input ≠ "") :
    ∃ cr a,
      (∀ j, j < 4 →
        (handleSubmitModel (fun _ r => Except.ok (g r)) m input).trace[1 + j]? =
            some (cr, Except.ok a) ∧
          (handleSubmitModel (fun _ r => Except.ok (g r)) m input).statuses[1 + j]? =
            some (initStatus j)) ∧
      cr.systemInstruction = INITIAL_SYSTEM_INSTRUCTION := by
  refine ⟨sharedInitRecord g m input, g (sharedInitRecord g m input), fun j hj => ?_, rfl⟩
  interval_cases j
  · exact ⟨by simp only [handleSubmitModel, if_neg h]; rfl,
      by simp only [handleSubmitModel, if_neg h]; rfl⟩
  · exact ⟨by simp only [handleSubmitModel, if_neg h]; rfl,
      by simp only [handleSubmitModel, if_neg h]; rfl⟩
  · exact ⟨by simp only [handleSubmitModel, if_neg h]; rfl,
      by simp only [handleSubmitModel, if_neg h]; rfl⟩
  · exact ⟨by simp only [handleSubmitModel, if_neg h]; rfl,
      by simp only [handleSubmitModel, if_neg h]; rfl⟩

/-- The plan text an all-success run obtains from the strategist call,
for provider behaviour `f`. -/
def planTextOf (f : Nat → CallRecord → String) (m : AppModel) (input : String) : String :=
  f 0 (strategistRecord m input)

/-- The (shared) record of the four initial-draft calls on an all-success
run with provider behaviour `f`. -/
def initRecordOf (f : Nat → CallRecord → String) (m : AppModel) (input : String) : CallRecord :=
  CallRecord.mk
    (chatHistory m input ++
      [Content.mk "user" [userQueryWithPlan input (planTextOf f m input)]])
    INITIAL_SYSTEM_INSTRUCTION

/-- The four initial-draft responses of an all-success run with provider
behaviour `f`, in slot order. -/
def initAnswersOf (f : Nat → CallRecord → String) (m : AppModel) (input : String) :
    List String :=
  [f 1 (initRecordOf f m input), f 2 (initRecordOf f m input),
   f 3 (initRecordOf f m input), f 4 (initRecordOf f m input)]

/-- The record of the slot-`i` refinement call on an all-success run with
provider behaviour `f`. -/
def refineRecordOf (f : Nat → CallRecord → String) (m : AppModel) (input : String)
    (i : Nat) : CallRecord :=
  CallRecord.mk
    (chatHistory m input ++
      [refinementTurn (userQueryWithPlan input (planTextOf f m input))
        (initAnswersOf f m input) i])
    REFINEMENT_SYSTEM_INSTRUCTION

/-- Claim C3: on an all-success run, the slot-`i` refinement call is built
from the planned turn (query plus plan) followed by the critique-context
block whose "my initial response" slot is the `i`-th initial result and
whose peer slots 1..3 are the other three initial results in ascending
original index order with index `i` removed (`inits.take i ++
inits.drop (i + 1)`). -/
theorem c3_refinement_self_peers (f : Nat → CallRecord → String) (m : AppModel)
    (input : String) (h : jsTrim input ≠ "") (i : Nat) (hi : i < 4) :
    ∃ (planText : String) (inits : List String) (res : Except AdapterError String),
      inits.length = 4 ∧
      (handleSubmitModel (fun j cr => Except.ok (f j cr)) m input).trace[0]? =
        some (strategistRecord m input, Except.ok planText) ∧
      (∀ j, j < 4 →
        (handleSubmitModel (fun j cr => Except.ok (f j cr)) m input).trace[1 + j]? =
          some (CallRecord.mk
            (chatHistory m input ++
              [Content.mk "user" [userQueryWithPlan input planText]])
            INITIAL_SYSTEM_INSTRUCTION, Except.ok (inits.getD j "undefined"))) ∧
      (handleSubmitModel (fun j cr => Except.ok (f j cr)) m input).trace[5 + i]? =
        some (CallRecord.mk
          (chatHistory m input ++
            [Content.mk "user"
              [userQueryWithPlan input planText ++ "\n\n---INTERNAL CONTEXT---\n" ++
                peerBlock (inits.getD i "undefined")
                  (inits.take i ++ inits.drop (i + 1))]])
          REFINEMENT_SYSTEM_INSTRUCTION, res) := by
  refine ⟨planTextOf f m input, initAnswersOf f m input,
    Except.ok (f (5 + i) (refineRecordOf f m input i)), rfl, ?_, fun j hj => ?_, ?_⟩
  · simp only [handleSubmitModel, if_neg h]
    rfl
  · interval_cases j
    · simp only [handleSubmitModel, if_neg h]; rfl
    · simp only [handleSubmitModel, if_neg h]; rfl
    · simp only [handleSubmitModel, if_neg h]; rfl
    · simp only [handleSubmitModel, if_neg h]; rfl
  · interval_cases i
    · simp only [handleSubmitModel, if_neg h]; rfl
    · simp only [handleSubmitModel, if_neg h]; rfl
    · simp only [handleSubmitModel, if_neg h]; rfl
    · simp only [handleSubmitModel, if_neg h]; rfl

/-- Concrete instantiation of claim C3 at slot 2. -/
theorem c3_refinement_self_peers_witness :
    jsTrim "q" ≠ "" ∧ 2 < 4 ∧
      ∃ (planText : String) (inits : List String) (res : Except AdapterError String),
        inits.length = 4 ∧
        (handleSubmitModel (fun j _ => Except.ok (toString j)) demoModel "q").trace[0]? =
          some (strategistRecord demoModel "q", Except.ok planText) ∧
        (∀ j, j < 4 →
          (handleSubmitModel (fun j _ => Except.ok (toString j)) demoModel "q").trace[1 + j]? =
            some (CallRecord.mk
              (chatHistory demoModel "q" ++
                [Content.mk "user" [userQueryWithPlan "q" planText]])
              INITIAL_SYSTEM_INSTRUCTION, Except.ok (inits.getD j "undefined"))) ∧
        (handleSubmitModel (fun j _ => Except.ok (toString j)) demoModel "q").trace[5 + 2]? =
          some (CallRecord.mk
            (chatHistory demoModel "q" ++
              [Content.mk "user"
                [userQueryWithPlan "q" planText ++ "\n\n---INTERNAL CONTEXT---\n" ++
                  peerBlock (inits.getD 2 "undefined")
                    (inits.take 2 ++ inits.drop (2 + 1))]])
            REFINEMENT_SYSTEM_INSTRUCTION, res) :=
  ⟨by decide, by decide,
    c3_refinement_self_peers (fun j _ => toString j) demoModel "q" (by decide) 2 (by decide)⟩

/-- Concrete instantiation of claim C10. -/
theorem c10_identical_initial_calls_witness :
    jsTrim "q" ≠ "" ∧
      ∃ cr a,
        (∀ j, j < 4 →
          (handleSubmitModel (fun _ _ => Except.ok "same") demoModel "q").trace[1 + j]? =
              some (cr, Except.ok a) ∧
            (handleSubmitModel (fun _ _ => Except.ok "same") demoModel "q").statuses[1 + j]? =
              some (initStatus j)) ∧
        cr.systemInstruction = INITIAL_SYSTEM_INSTRUCTION :=
  ⟨by decide, c10_identical_initial_calls (fun _ => "same") demoModel "q" (by decide)⟩

/-- Every call recorded in `t` succeeded. -/
def TraceOk (t : Trace) : Prop := ∀ p ∈ t, ∃ s, p.2 = Except.ok s

theorem traceOk_nil : TraceOk [] := by
  intro p hp
  simp at hp

theorem traceOk_cons (cr : CallRecord) (a : String) (t : Trace) (ht : TraceOk t) :
    TraceOk ((cr, Except.ok a) :: t) := by
  intro p hp
  rcases List.mem_cons.mp hp with h | h
  · exact ⟨a, by rw [h]⟩
  · exact ht p h

theorem traceOk_append (t1 t2 : Trace) (h1 : TraceOk t1) (h2 : TraceOk t2) :
    TraceOk (t1 ++ t2) := by
  intro p hp
  rcases List.mem_append.mp hp with h | h
  · exact h1 p h
  · exact h2 p h

/-- A sequential call loop either succeeds with every recorded call
succeeding, or stops at its first failure: the failing call is the last
one recorded and every call before it succeeded. -/
theorem runLoop_cases (oracle : Oracle) (mkCall : Nat → CallRecord) (mkStatus : Nat → String) :
    ∀ n i k,
      (∀ as, (runLoop oracle mkCall mkStatus n i k).2.2 = Except.ok as →
        TraceOk (runLoop oracle mkCall mkStatus n i k).1) ∧
      (∀ e, (runLoop oracle mkCall mkStatus n i k).2.2 = Except.error e →
        ∃ pre cr, (runLoop oracle mkCall mkStatus n i k).1 = pre ++ [(cr, Except.error e)] ∧
          TraceOk pre) := by
  intro n
  induction n with
  | zero =>
    intro i k
    refine ⟨fun as _ => ?_, fun e he => ?_⟩
    · intro p hp
      simp [runLoop] at hp
    · simp [runLoop] at he
  | succ n ih =>
    intro i k
    cases ho : oracle k (mkCall i) with
    | error e0 =>
      refine ⟨fun as has => ?_, fun e he => ?_⟩
      · simp only [runLoop, ho] at has
        cases has
      · simp only [runLoop, ho] at he ⊢
        obtain rfl : e0 = e := by
          cases he
          rfl
        exact ⟨[], mkCall i, rfl, traceOk_nil⟩
    | ok a =>
      cases hr : (runLoop oracle mkCall mkStatus n (i + 1) (k + 1)).2.2 with
      | ok as2 =>
        refine ⟨fun as has => ?_, fun e he => ?_⟩
        · simp only [runLoop, ho, hr] at has ⊢
          exact traceOk_cons _ a _ (((ih (i + 1) (k + 1)).1) as2 hr)
        · simp only [runLoop, ho, hr] at he
          cases he
      | error e2 =>
        refine ⟨fun as has => ?_, fun e he => ?_⟩
        · simp only [runLoop, ho, hr] at has
          cases has
        · simp only [runLoop, ho, hr] at he ⊢
          obtain rfl : e2 = e := by
            cases he
            rfl
          obtain ⟨pre, cr, hsplit, hpre⟩ := ((ih (i + 1) (k + 1)).2) e2 hr
          refine ⟨(mkCall i, Except.ok a) :: pre, cr, ?_, ?_⟩
          · rw [hsplit]
            rfl
          · exact traceOk_cons _ a _ hpre

/-- The whole pipeline either succeeds with every recorded call
succeeding, or stops at its first failure: the failing call is the last
call recorded and every call before it succeeded, and its error is the
pipeline's result. -/
theorem runPipeline_cases (oracle : Oracle) (history : List Content) (input : String) :
    (∀ s, (runPipeline oracle history input).2.2 = Except.ok s →
      TraceOk (runPipeline oracle history input).1) ∧
    (∀ e, (runPipeline oracle history input).2.2 = Except.error e →
      ∃ pre cr, (runPipeline oracle history input).1 = pre ++ [(cr, Except.error e)] ∧
        TraceOk pre) := by
  cases ho : oracle 0 (CallRecord.mk (history ++ [Content.mk "user" [input]])
      STRATEGIST_SYSTEM_INSTRUCTION) with
  | error e0 =>
    refine ⟨fun s hs => ?_, fun e he => ?_⟩
    · simp only [runPipeline, ho] at hs
      cases hs
    · simp only [runPipeline, ho] at he ⊢
      obtain rfl : e0 = e := by
        cases he
        rfl
      exact ⟨[], CallRecord.mk (history ++ [Content.mk "user" [input]])
        STRATEGIST_SYSTEM_INSTRUCTION, rfl, traceOk_nil⟩
  | ok plan =>
    cases hr1 : (runLoop oracle
        (fun _ => CallRecord.mk
          (history ++ [Content.mk "user" [userQueryWithPlan input plan]])
          INITIAL_SYSTEM_INSTRUCTION)
        initStatus 4 0 1).2.2 with
    | error e1 =>
      refine ⟨fun s hs => ?_, fun e he => ?_⟩
      · simp only [runPipeline, ho, hr1] at hs
        cases hs
      · simp only [runPipeline, ho, hr1] at he ⊢
        obtain rfl : e1 = e := by
          cases he
          rfl
        obtain ⟨pre1, cr, hsplit, hpre⟩ := (runLoop_cases oracle _ initStatus 4 0 1).2 e1 hr1
        refine ⟨(CallRecord.mk (history ++ [Content.mk "user" [input]])
            STRATEGIST_SYSTEM_INSTRUCTION, Except.ok plan) :: pre1, cr, ?_, ?_⟩
        · rw [hsplit]
          rfl
        · exact traceOk_cons _ plan _ hpre
    | ok initialAnswers =>
      have h1ok : TraceOk (runLoop oracle
          (fun _ => CallRecord.mk
            (history ++ [Content.mk "user" [userQueryWithPlan input plan]])
            INITIAL_SYSTEM_INSTRUCTION)
          initStatus 4 0 1).1 :=
        (runLoop_cases oracle _ initStatus 4 0 1).1 initialAnswers hr1
      cases hr2 : (runLoop oracle
          (fun i => CallRecord.mk
            (history ++ [refinementTurn (userQueryWithPlan input plan) initialAnswers i])
            REFINEMENT_SYSTEM_INSTRUCTION)
          refineStatus 4 0 5).2.2 with
      | error e2 =>
        refine ⟨fun s hs => ?_, fun e he => ?_⟩
        · simp only [runPipeline, ho, hr1, hr2] at hs
          cases hs
        · simp only [runPipeline, ho, hr1, hr2] at he ⊢
          obtain rfl : e2 = e := by
            cases he
            rfl
          obtain ⟨pre2, cr, hsplit, hpre⟩ :=
            (runLoop_cases oracle _ refineStatus 4 0 5).2 e2 hr2
          refine ⟨(CallRecord.mk (history ++ [Content.mk "user" [input]])
              STRATEGIST_SYSTEM_INSTRUCTION, Except.ok plan) ::
              ((runLoop oracle
                (fun _ => CallRecord.mk
                  (history ++ [Content.mk "user" [userQueryWithPlan input plan]])
                  INITIAL_SYSTEM_INSTRUCTION)
                initStatus 4 0 1).1 ++ pre2), cr, ?_, ?_⟩
          · rw [hsplit]
            simp [List.append_assoc]
          · refine traceOk_cons _ plan _ (traceOk_append _ _ h1ok hpre)
      | ok refinedAnswers =>
        have h2ok : TraceOk (runLoop oracle
            (fun i => CallRecord.mk
              (history ++ [refinementTurn (userQueryWithPlan input plan) initialAnswers i])
              REFINEMENT_SYSTEM_INSTRUCTION)
            refineStatus 4 0 5).1 :=
          (runLoop_cases oracle _ refineStatus 4 0 5).1 refinedAnswers hr2
        cases ho9 : oracle 9 (CallRecord.mk
            (history ++ [Content.mk "user"
              [userQueryWithPlan input plan ++ "\n\n---INTERNAL CONTEXT---\n" ++
                synthContext refinedAnswers]])
            SYNTHESIZER_SYSTEM_INSTRUCTION) with
        | error e9 =>
          refine ⟨fun s hs => ?_, fun e he => ?_⟩
          · simp only [runPipeline, ho, hr1, hr2, ho9] at hs
            cases hs
          · simp only [runPipeline, ho, hr1, hr2, ho9] at he ⊢
            obtain rfl : e9 = e := by
              cases he
              rfl
            refine ⟨(CallRecord.mk (history ++ [Content.mk "user" [input]])
                STRATEGIST_SYSTEM_INSTRUCTION, Except.ok plan) ::
                ((runLoop oracle
                  (fun _ => CallRecord.mk
                    (history ++ [Content.mk "user" [userQueryWithPlan input plan]])
                    INITIAL_SYSTEM_INSTRUCTION)
                  initStatus 4 0 1).1 ++
                 (runLoop oracle
                  (fun i => CallRecord.mk
                    (history ++ [refinementTurn (userQueryWithPlan input plan) initialAnswers i])
                    REFINEMENT_SYSTEM_INSTRUCTION)
                  refineStatus 4 0 5).1),
              CallRecord.mk
                (history ++ [Content.mk "user"
                  [userQueryWithPlan input plan ++ "\n\n---INTERNAL CONTEXT---\n" ++
                    synthContext refinedAnswers]])
                SYNTHESIZER_SYSTEM_INSTRUCTION, ?_, ?_⟩
            · simp [List.append_assoc]
            · exact traceOk_cons _ plan _ (traceOk_append _ _ h1ok h2ok)
        | ok fin =>
          refine ⟨fun s hs => ?_, fun e he => ?_⟩
          · simp only [runPipeline, ho, hr1, hr2, ho9] at hs ⊢
            refine traceOk_cons _ plan _ (traceOk_append _ _ (traceOk_append _ _ h1ok h2ok) ?_)
            exact traceOk_cons _ fin [] traceOk_nil
          · simp only [runPipeline, ho, hr1, hr2, ho9] at he
            cases he

/-- Claim C2: if the j-th adapter call of a submission fails with error
`e`, then it is the last call issued (no call of any later stage — indeed
no further call at all — is made), the request's terminal event is exactly
that error with no partial artifact, and the error's message text is
appended as the displayed model reply in place of a synthesized answer. -/
theorem c2_failure_aborts (oracle : Oracle) (m : AppModel) (input : String)
    (j : Nat) (cr : CallRecord) (e : AdapterError)
    (h : (handleSubmitModel oracle m input).trace[j]? = some (cr, Except.error e)) :
    j = (handleSubmitModel oracle m input).trace.length - 1 ∧
      (∀ j2, j < j2 → (handleSubmitModel oracle m input).trace[j2]? = none) ∧
      (handleSubmitModel oracle m input).terminal = some (Except.error e) ∧
      (handleSubmitModel oracle m input).state.messages =
        m.messages ++ [Message.mk "user" [input], Message.mk "model" [e.message]] ∧
      (handleSubmitModel oracle m input).state.isLoading = false := by
  by_cases ht : jsTrim input = ""
  · simp only [handleSubmitModel, if_pos ht] at h
    simp at h
  · cases hres : (runPipeline oracle (chatHistory m input) input).2.2 with
    | ok fin =>
      exfalso
      have hok := (runPipeline_cases oracle (chatHistory m input) input).1 fin hres
      simp only [handleSubmitModel, if_neg ht, hres] at h
      obtain ⟨hlt, hget⟩ := List.getElem?_eq_some_iff.mp h
      have hmem : (cr, Except.error e) ∈ (runPipeline oracle (chatHistory m input) input).1 := by
        rw [← hget]
        exact List.getElem_mem _
      obtain ⟨s, hs⟩ := hok _ hmem
      cases hs
    | error e2 =>
      obtain ⟨pre, cr2, hsplit, hpre⟩ :=
        (runPipeline_cases oracle (chatHistory m input) input).2 e2 hres
      simp only [handleSubmitModel, if_neg ht, hres] at h ⊢
      rw [hsplit] at h ⊢
      rcases Nat.lt_trichotomy j pre.length with hj | hj | hj
      · exfalso
        rw [List.getElem?_append_left hj] at h
        obtain ⟨hlt, hget⟩ := List.getElem?_eq_some_iff.mp h
        have hmem : (cr, Except.error e) ∈ pre := by
          rw [← hget]
          exact List.getElem_mem _
        obtain ⟨s, hs⟩ := hpre _ hmem
        cases hs
      · rw [hj, List.getElem?_concat_length] at h
        have hcr : cr2 = cr ∧ e2 = e := by
          simp only [Option.some.injEq, Prod.mk.injEq, Except.error.injEq] at h
          exact h
        obtain ⟨rfl, rfl⟩ := hcr
        refine ⟨?_, ?_, rfl, ?_, trivial⟩
        · simp [hj]
        · intro j2 hj2
          apply List.getElem?_eq_none
          simp only [List.length_append, List.length_cons, List.length_nil]
          omega
        · simp [List.append_assoc]
      · exfalso
        have hnone : (pre ++ [(cr2, Except.error e2)])[j]? = none := by
          apply List.getElem?_eq_none
          simp only [List.length_append, List.length_cons, List.length_nil]
          omega
        rw [hnone] at h
        cases h

/-- A provider that fails at its third call (the second initial draft)
with a transport error. -/
def c2Oracle : Oracle := fun j _ =>
  if j = 2 then Except.error (AdapterError.transport "boom") else Except.ok "fine"

/-- Concrete instantiation of claim C2: the failing third call is the last
call issued, its error is the terminal event, and its message is the
displayed reply. -/
theorem c2_failure_aborts_witness :
    (handleSubmitModel c2Oracle demoModel "q").trace[2]? =
        some ((handleSubmitModel c2Oracle demoModel "q").trace.getD 2
          (CallRecord.mk [] "", Except.ok "")) ∧
      ((handleSubmitModel c2Oracle demoModel "q").trace.getD 2
          (CallRecord.mk [] "", Except.ok "")).2 =
        Except.error (AdapterError.transport "boom") ∧
      2 = (handleSubmitModel c2Oracle demoModel "q").trace.length - 1 ∧
      (∀ j2, 2 < j2 → (handleSubmitModel c2Oracle demoModel "q").trace[j2]? = none) ∧
      (handleSubmitModel c2Oracle demoModel "q").terminal =
        some (Except.error (AdapterError.transport "boom")) ∧
      (handleSubmitModel c2Oracle demoModel "q").state.messages =
        [Message.mk "user" ["q"], Message.mk "model" ["boom"]] ∧
      (handleSubmitModel c2Oracle demoModel "q").state.isLoading = false := by
  have happ := c2_failure_aborts c2Oracle demoModel "q" 2
    ((handleSubmitModel c2Oracle demoModel "q").trace.getD 2
      (CallRecord.mk [] "", Except.ok "")).1
    (AdapterError.transport "boom") (by rfl)
  exact ⟨by rfl, by rfl, happ.1, happ.2.1, happ.2.2.1,
    by rw [happ.2.2.2.1]; rfl, happ.2.2.2.2⟩

/-- The string the provider enum value interpolates to in templates. -/
def providerName : ApiProvider → String
  | .google => "google"
  | .groq => "groq"
  | .openrouter => "openrouter"

/-- The credential the adapter consults for the selected provider. -/
def selectedKey (s : ApiSettings) : String :=
  match s.provider with
  | .google => s.keys.google
  | .groq => s.keys.groq
  | .openrouter => s.keys.openrouter

/-- Constant `DEFAULT_MODEL_NAME` from the source. -/
def DEFAULT_MODEL_NAME : String := "gemini-2.5-flash"

/-- One element of the `messages` array of an OpenAI-compatible
chat-completion request body. -/
structure ChatMessage where
  role : String
  content : String
  deriving DecidableEq

/-- The single `fetch` request the OpenAI-compatible path issues:
endpoint, method, headers, and the JSON body's `model` and `messages`
fields. -/
structure OpenAIRequest where
  url : String
  method : String
  headers : List (String × String)
  model : String
  messages : List ChatMessage
  deriving DecidableEq

/-- The body of an HTTP response as `response.json()` sees it: either a
JSON object (with the optional `error.message` field and the
`choices[k].message.content` list the code reads), or a non-JSON payload
on which `response.json()` rejects with a parse-error message. -/
inductive HttpBody where
  | json (errMsg : Option String) (choices : List String)
  | notJson (parseMsg : String)
  deriving DecidableEq

/-- An HTTP response: the `ok` flag (2xx) and the body. -/
structure HttpResponse where
  ok : Bool
  body : HttpBody
  deriving DecidableEq

/-- A single outbound network call: either a native-SDK generate call to
Google or a `fetch` of an OpenAI-compatible chat completion. -/
inductive NetworkCall where
  | googleCall (model : String) (contents : List Content) (systemInstruction : String)
  | fetchCall (req : OpenAIRequest)
  deriving DecidableEq

/-- The `errorData.error?.message || ...` fallback of the source: the
upstream error message when present and truthy, else the readable
default "Unknown error". -/
def errMsgFallback : Option String → String
  | some s => if s = "" then "Unknown error" else s
  | none => "Unknown error"

/-- Behaviour of the Google SDK network call: given model, contents and
system instruction, the returned `response.text` or a failure message. -/
abbrev GoogleNet := String → List Content → String → Except String String

/-- Behaviour of `fetch`: the response for a request. -/
abbrev FetchNet := OpenAIRequest → HttpResponse

/-- Function `callGenerativeAI` from the source, parameterized by the network's
behaviour.  Returns the outbound network calls made (empty when the
missing-key check throws first) and the returned text or thrown error.
The google branch falls back to `DEFAULT_MODEL_NAME` when the configured
model name is empty (`model || DEFAULT_MODEL_NAME`); the OpenAI-compatible
branch prepends a `system` message exactly when the instruction is
non-empty, maps each content's role verbatim with its parts joined by
newlines, and sends one POST with a bearer-token header (OpenRouter adds
two extra headers).  A non-2xx response throws the transport error built
from `errorData.error?.message`; a body on which `response.json()`
rejects propagates the parse failure; a 2xx body yields
`choices[0].message.content`. -/
def callGenerativeAI (settings : ApiSettings) (googleNet : GoogleNet) (fetchNet : FetchNet)
    (contents : List Content) (systemInstruction : String) :
    List NetworkCall × Except AdapterError String :=
  match settings.provider with
  | ApiProvider.google =>
    let apiKey := settings.keys.google
    if apiKey = "" then ([], Except.error (AdapterError.auth "Google API key is missing."))
    else
      let mdl := if settings.model = "" then DEFAULT_MODEL_NAME else settings.model
      ([NetworkCall.googleCall mdl contents systemInstruction],
        match googleNet mdl contents systemInstruction with
        | Except.ok text => Except.ok text
        | Except.error msg => Except.error (AdapterError.transport msg))
  | p =>
    let apiUrl := if p = ApiProvider.groq then "https://api.groq.com/openai/v1/chat/completions"
      else "https://openrouter.ai/api/v1/chat/completions"
    let apiKey := if p = ApiProvider.groq then settings.keys.groq else settings.keys.openrouter
    if apiKey = "" then
      ([], Except.error (AdapterError.auth (providerName p ++ " API key is missing.")))
    else
      let messagesForApi :=
        (if systemInstruction = "" then [] else [ChatMessage.mk "system" systemInstruction]) ++
          contents.map (fun c => ChatMessage.mk c.role (String.intercalate "\n" c.parts))
      let headers :=
        [("Authorization", "Bearer " ++ apiKey), ("Content-Type", "application/json")] ++
          (if p = ApiProvider.openrouter then
            [("HTTP-Referer", "https://github.com/your-repo/smadr"),
             ("X-Title", "(SMADR) Strategic Multi-Agent Deep Research")]
          else [])
      let req : OpenAIRequest := OpenAIRequest.mk apiUrl "POST" headers settings.model messagesForApi
      let resp := fetchNet req
      ([NetworkCall.fetchCall req],
        if resp.ok then
          match resp.body with
          | HttpBody.json _ (c :: _) => Except.ok c
          | HttpBody.json _ [] =>
            Except.error (AdapterError.protocol
              "Cannot read properties of undefined (reading \x27message\x27)")
          | HttpBody.notJson pm => Except.error (AdapterError.parse pm)
        else
          match resp.body with
          | HttpBody.json errMsg _ =>
            Except.error (AdapterError.transport
              ("API Error from " ++ providerName p ++ ": " ++ errMsgFallback errMsg))
          | HttpBody.notJson pm => Except.error (AdapterError.parse pm))

/-- The adapter-call oracle the real adapter induces for one request: the
j-th call applies `callGenerativeAI` with the captured settings and the
j-th network behaviour. -/
def pipelineOracle (settings : ApiSettings) (gNet : Nat → GoogleNet) (fNet : Nat → FetchNet) :
    Oracle :=
  fun j cr => (callGenerativeAI settings (gNet j) (fNet j) cr.contents cr.systemInstruction).2

/-- All outbound network calls a submission makes: the network calls of
each issued adapter call, in call order. -/
def submissionNetworkCalls (settings : ApiSettings) (gNet : Nat → GoogleNet)
    (fNet : Nat → FetchNet) (m : AppModel) (input : String) : List NetworkCall :=
  ((handleSubmitModel (pipelineOracle settings gNet fNet) m input).trace.enum.map
    (fun p => (callGenerativeAI settings (gNet p.1) (fNet p.1)
      p.2.1.contents p.2.1.systemInstruction).1)).flatten

/-- The message of the missing-key throw for each provider. -/
def missingKeyMessage : ApiProvider → String
  | ApiProvider.google => "Google API key is missing."
  | p => providerName p ++ " API key is missing."

/-- Claim C4: when the credential for the selected provider is the empty
string, a submission fails with the auth error and makes zero outbound
network calls. -/
theorem c4_missing_key_fails_fast (settings : ApiSettings) (gNet : Nat → GoogleNet)
    (fNet : Nat → FetchNet) (m : AppModel) (input : String)
    (hk : selectedKey settings = "") (ht : jsTrim input ≠ "") :
    submissionNetworkCalls settings gNet fNet m input = [] ∧
      (handleSubmitModel (pipelineOracle settings gNet fNet) m input).terminal =
        some (Except.error (AdapterError.auth (missingKeyMessage settings.provider))) := by
  have hadapter : ∀ (j : Nat) (cs : List Content) (si : String),
      callGenerativeAI settings (gNet j) (fNet j) cs si =
        ([], Except.error (AdapterError.auth (missingKeyMessage settings.provider))) := by
    obtain ⟨prov, mdl, keys⟩ := settings
    intro j cs si
    cases prov
    · simp only [selectedKey] at hk
      simp [callGenerativeAI, missingKeyMessage, hk]
    · simp only [selectedKey] at hk
      simp [callGenerativeAI, missingKeyMessage, providerName, hk]
    · simp only [selectedKey] at hk
      simp [callGenerativeAI, missingKeyMessage, providerName, hk]
  constructor
  · have hjoin : ∀ (t : List (Nat × (CallRecord × Except AdapterError String))),
        (t.map (fun _ => ([] : List NetworkCall))).flatten = [] := by
      intro t
      induction t with
      | nil => rfl
      | cons a t ih => simp [ih]
    simp only [submissionNetworkCalls, hadapter]
    exact hjoin _
  · simp only [handleSubmitModel, if_neg ht, runPipeline, pipelineOracle, hadapter]

/-- Concrete instantiation of claim C4: a groq configuration with an empty
groq key. -/
theorem c4_missing_key_fails_fast_witness :
    selectedKey (ApiSettings.mk ApiProvider.groq "llama" (ApiKeys.mk "g" "" "o")) = "" ∧
      jsTrim "q" ≠ "" ∧
      submissionNetworkCalls (ApiSettings.mk ApiProvider.groq "llama" (ApiKeys.mk "g" "" "o"))
        (fun _ => fun _ _ _ => Except.ok "t")
        (fun _ => fun _ => HttpResponse.mk true (HttpBody.json none ["t"]))
        demoModel "q" = [] ∧
      (handleSubmitModel (pipelineOracle
          (ApiSettings.mk ApiProvider.groq "llama" (ApiKeys.mk "g" "" "o"))
          (fun _ => fun _ _ _ => Except.ok "t")
          (fun _ => fun _ => HttpResponse.mk true (HttpBody.json none ["t"])))
          demoModel "q").terminal =
        some (Except.error (AdapterError.auth (missingKeyMessage ApiProvider.groq))) := by
  refine ⟨by decide, by decide, ?_, ?_⟩
  · exact (c4_missing_key_fails_fast _ _ _ demoModel "q" (by decide) (by decide)).1
  · exact (c4_missing_key_fails_fast _ _ _ demoModel "q" (by decide) (by decide)).2

/-- Function `handleSaveSettings` from the source: installs the new settings value
and persists a copy. -/
def handleSaveSettings (m : AppModel) (newSettings : ApiSettings) : AppModel :=
  AppModel.mk m.messages m.isLoading newSettings (some newSettings)

/-- A submission together with any number of mid-flight settings saves.
In the source, `callGenerativeAI` destructures the `apiSettings` binding
captured by the submitting render's closure; `setApiSettings` never
mutates that binding — it installs a new value for later renders.  The
in-flight pipeline therefore runs entirely against the value captured at
submission, and the saves only move the settings fields of the state. -/
def handleSubmitWithUpdates (gNet : Nat → GoogleNet) (fNet : Nat → FetchNet)
    (m : AppModel) (input : String) (updates : List ApiSettings) : SubmitOutcome :=
  let out := handleSubmitModel (pipelineOracle m.apiSettings gNet fNet) m input
  SubmitOutcome.mk (updates.foldl handleSaveSettings out.state) out.trace out.statuses
    out.terminal

theorem foldl_saveSettings_fields (updates : List ApiSettings) (m : AppModel) :
    (updates.foldl handleSaveSettings m).messages = m.messages ∧
      (updates.foldl handleSaveSettings m).isLoading = m.isLoading := by
  induction updates generalizing m with
  | nil => exact ⟨rfl, rfl⟩
  | cons a t ih => exact ih (handleSaveSettings m a)

/-- Claim C9: saving any sequence of new provider configurations after
submission and before completion does not change the in-flight request's
behaviour — the calls issued with their results, the progress labels, the
terminal event, and the displayed conversation and loading state all equal
those of a run with no mid-flight change, because every call uses the
configuration captured at submission time. -/
theorem c9_midflight_settings_noninterference (gNet : Nat → GoogleNet)
    (fNet : Nat → FetchNet) (m : AppModel) (input : String) (updates : List ApiSettings) :
    (handleSubmitWithUpdates gNet fNet m input updates).trace =
        (handleSubmitWithUpdates gNet fNet m input []).trace ∧
      (handleSubmitWithUpdates gNet fNet m input updates).statuses =
        (handleSubmitWithUpdates gNet fNet m input []).statuses ∧
      (handleSubmitWithUpdates gNet fNet m input updates).terminal =
        (handleSubmitWithUpdates gNet fNet m input []).terminal ∧
      (handleSubmitWithUpdates gNet fNet m input updates).state.messages =
        (handleSubmitWithUpdates gNet fNet m input []).state.messages ∧
      (handleSubmitWithUpdates gNet fNet m input updates).state.isLoading =
        (handleSubmitWithUpdates gNet fNet m input []).state.isLoading := by
  refine ⟨rfl, rfl, rfl, ?_, ?_⟩
  · exact (foldl_saveSettings_fields updates _).1
  · exact (foldl_saveSettings_fields updates _).2

/-- Claim C7: for the OpenAI-compatible providers (groq, openrouter) with
a non-empty key, `callGenerativeAI` issues exactly one POST request whose
JSON body carries the configured model and the messages array obtained by
prepending a `system` message exactly when the system instruction is
non-empty and then mapping every conversation turn, in order and with its
role preserved, to a `{role, content}` record whose content joins the
turn's texts with newlines; the request carries the bearer authorization
header, and on a 2xx response with a first choice the adapter's result is
that first choice's `message.content`. -/
theorem c7_openai_request_shape (settings : ApiSettings) (gNet : GoogleNet) (fNet : FetchNet)
    (contents : List Content) (instr : String)
    (hp : settings.provider = ApiProvider.groq ∨ settings.provider = ApiProvider.openrouter)
    (hk : selectedKey settings ≠ "") :
    ∃ req : OpenAIRequest,
      (callGenerativeAI settings gNet fNet contents instr).1 = [NetworkCall.fetchCall req] ∧
      req.method = "POST" ∧
      ("Authorization", "Bearer " ++ selectedKey settings) ∈ req.headers ∧
      ("Content-Type", "application/json") ∈ req.headers ∧
      req.model = settings.model ∧
      (instr ≠ "" → req.messages[0]? = some (ChatMessage.mk "system" instr)) ∧
      req.messages.length = (if instr = "" then 0 else 1) + contents.length ∧
      (∀ k c, contents[k]? = some c →
        req.messages[(if instr = "" then 0 else 1) + k]? =
          some (ChatMessage.mk c.role (String.intercalate "\n" c.parts))) ∧
      (∀ em c cs, fNet req = HttpResponse.mk true (HttpBody.json em (c :: cs)) →
        (callGenerativeAI settings gNet fNet contents instr).2 = Except.ok c) := by
  obtain ⟨prov, mdl, keys⟩ := settings
  rcases hp with h | h
  · have hpe : prov = ApiProvider.groq := h
    subst hpe
    have hk2 : ¬ (keys.groq = "") := hk
    refine ⟨OpenAIRequest.mk "https://api.groq.com/openai/v1/chat/completions" "POST"
        [("Authorization", "Bearer " ++ keys.groq), ("Content-Type", "application/json")]
        mdl ((if instr = "" then [] else [ChatMessage.mk "system" instr]) ++
          contents.map (fun c => ChatMessage.mk c.role (String.intercalate "\n" c.parts))),
      ?_, rfl, ?_, ?_, rfl, ?_, ?_, ?_, ?_⟩
    · simp [callGenerativeAI, hk2]
    · simp [selectedKey]
    · simp
    · intro hi
      simp [hi]
    · by_cases hi : instr = "" <;> simp [hi, Nat.add_comm]
    · intro k c hc
      by_cases hi : instr = "" <;> simp [hi, List.getElem?_map, hc, Nat.add_comm]
    · intro em c cs hresp
      simp [callGenerativeAI, hk2, hresp]
  · have hpe : prov = ApiProvider.openrouter := h
    subst hpe
    have hk2 : ¬ (keys.openrouter = "") := hk
    refine ⟨OpenAIRequest.mk "https://openrouter.ai/api/v1/chat/completions" "POST"
        [("Authorization", "Bearer " ++ keys.openrouter), ("Content-Type", "application/json"),
         ("HTTP-Referer", "https://github.com/your-repo/smadr"),
         ("X-Title", "(SMADR) Strategic Multi-Agent Deep Research")]
        mdl ((if instr = "" then [] else [ChatMessage.mk "system" instr]) ++
          contents.map (fun c => ChatMessage.mk c.role (String.intercalate "\n" c.parts))),
      ?_, rfl, ?_, ?_, rfl, ?_, ?_, ?_, ?_⟩
    · simp [callGenerativeAI, hk2]
    · simp [selectedKey]
    · simp
    · intro hi
      simp [hi]
    · by_cases hi : instr = "" <;> simp [hi, Nat.add_comm]
    · intro k c hc
      by_cases hi : instr = "" <;> simp [hi, List.getElem?_map, hc, Nat.add_comm]
    · intro em c cs hresp
      simp [callGenerativeAI, hk2, hresp]

/-- Settings used by the adapter-level witnesses: groq with a key. -/
def c7Settings : ApiSettings := ApiSettings.mk ApiProvider.groq "llama-3" (ApiKeys.mk "" "gsk-key" "")

/-- Concrete instantiation of claim C7. -/
theorem c7_openai_request_shape_witness :
    (c7Settings.provider = ApiProvider.groq ∨ c7Settings.provider = ApiProvider.openrouter) ∧
      selectedKey c7Settings ≠ "" ∧
      ∃ req : OpenAIRequest,
        (callGenerativeAI c7Settings (fun _ _ _ => Except.ok "unused")
            (fun _ => HttpResponse.mk true (HttpBody.json none ["answer"]))
            [Content.mk "user" ["hi", "there"], Content.mk "model" ["prev"]] "sys").1 =
          [NetworkCall.fetchCall req] ∧
        req.method = "POST" ∧
        ("Authorization", "Bearer " ++ selectedKey c7Settings) ∈ req.headers ∧
        ("Content-Type", "application/json") ∈ req.headers ∧
        req.model = c7Settings.model ∧
        ("sys" ≠ "" → req.messages[0]? = some (ChatMessage.mk "system" "sys")) ∧
        req.messages.length = (if "sys" = "" then 0 else 1) +
          ([Content.mk "user" ["hi", "there"], Content.mk "model" ["prev"]] : List Content).length ∧
        (∀ k c, ([Content.mk "user" ["hi", "there"], Content.mk "model" ["prev"]] :
              List Content)[k]? = some c →
          req.messages[(if "sys" = "" then 0 else 1) + k]? =
            some (ChatMessage.mk c.role (String.intercalate "\n" c.parts))) ∧
        (∀ em c cs, (fun _ => HttpResponse.mk true (HttpBody.json none ["answer"])) req =
            HttpResponse.mk true (HttpBody.json em (c :: cs)) →
          (callGenerativeAI c7Settings (fun _ _ _ => Except.ok "unused")
              (fun _ => HttpResponse.mk true (HttpBody.json none ["answer"]))
              [Content.mk "user" ["hi", "there"], Content.mk "model" ["prev"]] "sys").2 =
            Except.ok c) :=
  ⟨Or.inl rfl, by decide,
    c7_openai_request_shape c7Settings (fun _ _ _ => Except.ok "unused")
      (fun _ => HttpResponse.mk true (HttpBody.json none ["answer"]))
      [Content.mk "user" ["hi", "there"], Content.mk "model" ["prev"]] "sys"
      (Or.inl rfl) (by decide)⟩

/-- Does an adapter result carry a `transport` error? -/
def isTransportResult : Except AdapterError String → Bool
  | Except.error (AdapterError.transport _) => true
  | _ => false

/-- Claim C8, counterexample: a non-2xx groq response whose body is not
JSON (an HTML error page, say).  `await response.json()` rejects before
the transport throw is reached, so the adapter surfaces the JSON parse
failure: the result is not a `TransportError` and no "Unknown error"
fallback is applied. -/
theorem c8_counterexample :
    (callGenerativeAI c7Settings (fun _ _ _ => Except.ok "unused")
        (fun _ => HttpResponse.mk false
          (HttpBody.notJson "Unexpected token < in JSON at position 0"))
        [Content.mk "user" ["hi"]] "sys").2 =
      Except.error (AdapterError.parse "Unexpected token < in JSON at position 0") ∧
      isTransportResult
        ((callGenerativeAI c7Settings (fun _ _ _ => Except.ok "unused")
          (fun _ => HttpResponse.mk false
            (HttpBody.notJson "Unexpected token < in JSON at position 0"))
          [Content.mk "user" ["hi"]] "sys").2) = false :=
  ⟨rfl, rfl⟩

/-- Claim C8 (amended): for a non-2xx response from an OpenAI-compatible
provider whose body parses as JSON, the adapter fails with a
`TransportError` carrying the upstream `error.message` when present and
non-empty and the readable default "Unknown error" otherwise; when the
body is not JSON, the `response.json()` rejection is surfaced instead of
the transport error. -/
theorem c8_non2xx_errors (settings : ApiSettings) (gNet : GoogleNet) (resp : HttpResponse)
    (contents : List Content) (instr : String)
    (hp : settings.provider = ApiProvider.groq ∨ settings.provider = ApiProvider.openrouter)
    (hk : selectedKey settings ≠ "") (hok : resp.ok = false) :
    (∀ em ch, resp.body = HttpBody.json em ch →
      (callGenerativeAI settings gNet (fun _ => resp) contents instr).2 =
        Except.error (AdapterError.transport
          ("API Error from " ++ providerName settings.provider ++ ": " ++ errMsgFallback em))) ∧
    (∀ pm, resp.body = HttpBody.notJson pm →
      (callGenerativeAI settings gNet (fun _ => resp) contents instr).2 =
        Except.error (AdapterError.parse pm)) := by
  obtain ⟨prov, mdl, keys⟩ := settings
  obtain ⟨rok, rbody⟩ := resp
  have hok2 : rok = false := hok
  subst hok2
  rcases hp with h | h
  · have hpe : prov = ApiProvider.groq := h
    subst hpe
    have hk2 : ¬ (keys.groq = "") := hk
    constructor
    · intro em ch hbody
      have hbody2 : rbody = HttpBody.json em ch := hbody
      subst hbody2
      simp [callGenerativeAI, hk2, providerName]
    · intro pm hbody
      have hbody2 : rbody = HttpBody.notJson pm := hbody
      subst hbody2
      simp [callGenerativeAI, hk2]
  · have hpe : prov = ApiProvider.openrouter := h
    subst hpe
    have hk2 : ¬ (keys.openrouter = "") := hk
    constructor
    · intro em ch hbody
      have hbody2 : rbody = HttpBody.json em ch := hbody
      subst hbody2
      simp [callGenerativeAI, hk2, providerName]
    · intro pm hbody
      have hbody2 : rbody = HttpBody.notJson pm := hbody
      subst hbody2
      simp [callGenerativeAI, hk2]

/-- Concrete instantiation of the amended claim C8: a non-2xx JSON body
with an upstream message, surfaced inside the transport error. -/
theorem c8_non2xx_errors_witness :
    (c7Settings.provider = ApiProvider.groq ∨ c7Settings.provider = ApiProvider.openrouter) ∧
      selectedKey c7Settings ≠ "" ∧
      (HttpResponse.mk false (HttpBody.json (some "rate limited") [])).ok = false ∧
      (callGenerativeAI c7Settings (fun _ _ _ => Except.ok "unused")
          (fun _ => HttpResponse.mk false (HttpBody.json (some "rate limited") []))
          [Content.mk "user" ["hi"]] "sys").2 =
        Except.error (AdapterError.transport
          ("API Error from " ++ providerName c7Settings.provider ++ ": " ++
            errMsgFallback (some "rate limited"))) :=
  ⟨Or.inl rfl, by decide, rfl,
    (c8_non2xx_errors c7Settings (fun _ _ _ => Except.ok "unused")
      (HttpResponse.mk false (HttpBody.json (some "rate limited") []))
      [Content.mk "user" ["hi"]] "sys" (Or.inl rfl) (by decide) rfl).1
      (some "rate limited") [] rfl⟩
